import Mathlib

/-!
Verification of the typr-io uinput Sender backend and its C-API boundary.

The definitions below are a shallow embedding of the repository's code:

* `Key` — the logical key enumeration.  Its constructor set is taken from the
  per-instance key map built in `Sender::Impl::initKeyMap`
  (src/src/sender/sender_uinput.cpp), plus the `Unknown` sentinel.
* `Sender.*` — the uinput backend operations from
  src/src/sender/sender_uinput.cpp, embedded as explicit state passing over
  `SWorld` (the `Sender::Impl` fields, the stream of `write(2)` outcomes the
  OS would produce, and the trace of OS interactions attempted so far).
* `keyToString` / `stringToKey` and the `typr_io_*` C-API wrappers are
  modelled from the spec: their implementation files (keymap translation
  unit and c_api translation unit) are not part of the provided sources,
  only their declarations (include/typr-io/c_api.h) and tests
  (tests/test_c_api.cpp).
-/

/-- Logical key identifiers.  Constructor set: every `Key::` value named in
`Sender::Impl::initKeyMap` of src/src/sender/sender_uinput.cpp, plus the
`Unknown` sentinel required by the spec's data model. -/
inductive Key where
  | A | B | C | D | E | F | G | H | I | J | K | L | M
  | N | O | P | Q | R | S | T | U | V | W | X | Y | Z
  | Num0 | Num1 | Num2 | Num3 | Num4 | Num5 | Num6 | Num7 | Num8 | Num9
  | F1 | F2 | F3 | F4 | F5 | F6 | F7 | F8 | F9 | F10
  | F11 | F12 | F13 | F14 | F15 | F16 | F17 | F18 | F19 | F20
  | Enter | Escape | Backspace | Tab | Space
  | Left | Right | Up | Down | Home | End | PageUp | PageDown | Delete | Insert
  | Numpad0 | Numpad1 | Numpad2 | Numpad3 | Numpad4
  | Numpad5 | Numpad6 | Numpad7 | Numpad8 | Numpad9
  | NumpadDivide | NumpadMultiply | NumpadMinus | NumpadPlus
  | NumpadEnter | NumpadDecimal
  | ShiftLeft | ShiftRight | CtrlLeft | CtrlRight
  | AltLeft | AltRight | SuperLeft | SuperRight | CapsLock | NumLock
  | Menu | Mute | VolumeDown | VolumeUp
  | MediaPlayPause | MediaStop | MediaNext | MediaPrevious
  | Grave | Minus | Equal | LeftBracket | RightBracket | Backslash
  | Semicolon | Apostrophe | Comma | Period | Slash
  | Unknown
deriving DecidableEq

/-- Modelled from the spec: `keyToString` (the Key/Modifier model translation
unit is not under src/; the spec requires a total function yielding the
canonical name of every key, `"Unknown"` included, and the C-API test
requires `keyToString(stringToKey("A")) = "A"`). -/
def keyToString : Key → String
  | .A => "A" | .B => "B" | .C => "C" | .D => "D" | .E => "E" | .F => "F"
  | .G => "G" | .H => "H" | .I => "I" | .J => "J" | .K => "K" | .L => "L"
  | .M => "M" | .N => "N" | .O => "O" | .P => "P" | .Q => "Q" | .R => "R"
  | .S => "S" | .T => "T" | .U => "U" | .V => "V" | .W => "W" | .X => "X"
  | .Y => "Y" | .Z => "Z"
  | .Num0 => "Num0" | .Num1 => "Num1" | .Num2 => "Num2" | .Num3 => "Num3"
  | .Num4 => "Num4" | .Num5 => "Num5" | .Num6 => "Num6" | .Num7 => "Num7"
  | .Num8 => "Num8" | .Num9 => "Num9"
  | .F1 => "F1" | .F2 => "F2" | .F3 => "F3" | .F4 => "F4" | .F5 => "F5"
  | .F6 => "F6" | .F7 => "F7" | .F8 => "F8" | .F9 => "F9" | .F10 => "F10"
  | .F11 => "F11" | .F12 => "F12" | .F13 => "F13" | .F14 => "F14"
  | .F15 => "F15" | .F16 => "F16" | .F17 => "F17" | .F18 => "F18"
  | .F19 => "F19" | .F20 => "F20"
  | .Enter => "Enter" | .Escape => "Escape" | .Backspace => "Backspace"
  | .Tab => "Tab" | .Space => "Space"
  | .Left => "Left" | .Right => "Right" | .Up => "Up" | .Down => "Down"
  | .Home => "Home" | .End => "End" | .PageUp => "PageUp"
  | .PageDown => "PageDown" | .Delete => "Delete" | .Insert => "Insert"
  | .Numpad0 => "Numpad0" | .Numpad1 => "Numpad1" | .Numpad2 => "Numpad2"
  | .Numpad3 => "Numpad3" | .Numpad4 => "Numpad4" | .Numpad5 => "Numpad5"
  | .Numpad6 => "Numpad6" | .Numpad7 => "Numpad7" | .Numpad8 => "Numpad8"
  | .Numpad9 => "Numpad9"
  | .NumpadDivide => "NumpadDivide" | .NumpadMultiply => "NumpadMultiply"
  | .NumpadMinus => "NumpadMinus" | .NumpadPlus => "NumpadPlus"
  | .NumpadEnter => "NumpadEnter" | .NumpadDecimal => "NumpadDecimal"
  | .ShiftLeft => "ShiftLeft" | .ShiftRight => "ShiftRight"
  | .CtrlLeft => "CtrlLeft" | .CtrlRight => "CtrlRight"
  | .AltLeft => "AltLeft" | .AltRight => "AltRight"
  | .SuperLeft => "SuperLeft" | .SuperRight => "SuperRight"
  | .CapsLock => "CapsLock" | .NumLock => "NumLock"
  | .Menu => "Menu" | .Mute => "Mute" | .VolumeDown => "VolumeDown"
  | .VolumeUp => "VolumeUp" | .MediaPlayPause => "MediaPlayPause"
  | .MediaStop => "MediaStop" | .MediaNext => "MediaNext"
  | .MediaPrevious => "MediaPrevious"
  | .Grave => "Grave" | .Minus => "Minus" | .Equal => "Equal"
  | .LeftBracket => "LeftBracket" | .RightBracket => "RightBracket"
  | .Backslash => "Backslash" | .Semicolon => "Semicolon"
  | .Apostrophe => "Apostrophe" | .Comma => "Comma" | .Period => "Period"
  | .Slash => "Slash"
  | .Unknown => "Unknown"

/-- Letter keys, in declaration order. -/
def letterKeys : List Key :=
  [.A, .B, .C, .D, .E, .F, .G, .H, .I, .J, .K, .L, .M,
   .N, .O, .P, .Q, .R, .S, .T, .U, .V, .W, .X, .Y, .Z]

/-- Digit-row and function keys, in declaration order. -/
def digitFunctionKeys : List Key :=
  [.Num0, .Num1, .Num2, .Num3, .Num4, .Num5, .Num6, .Num7, .Num8, .Num9,
   .F1, .F2, .F3, .F4, .F5, .F6, .F7, .F8, .F9, .F10,
   .F11, .F12, .F13, .F14, .F15, .F16, .F17, .F18, .F19, .F20]

/-- Control, navigation and numpad keys, in declaration order. -/
def navigationNumpadKeys : List Key :=
  [.Enter, .Escape, .Backspace, .Tab, .Space,
   .Left, .Right, .Up, .Down, .Home, .End, .PageUp, .PageDown, .Delete,
   .Insert,
   .Numpad0, .Numpad1, .Numpad2, .Numpad3, .Numpad4,
   .Numpad5, .Numpad6, .Numpad7, .Numpad8, .Numpad9,
   .NumpadDivide, .NumpadMultiply, .NumpadMinus, .NumpadPlus,
   .NumpadEnter, .NumpadDecimal]

/-- Modifier, media and punctuation keys plus the sentinel. -/
def modifierMiscKeys : List Key :=
  [.ShiftLeft, .ShiftRight, .CtrlLeft, .CtrlRight,
   .AltLeft, .AltRight, .SuperLeft, .SuperRight, .CapsLock, .NumLock,
   .Menu, .Mute, .VolumeDown, .VolumeUp,
   .MediaPlayPause, .MediaStop, .MediaNext, .MediaPrevious,
   .Grave, .Minus, .Equal, .LeftBracket, .RightBracket, .Backslash,
   .Semicolon, .Apostrophe, .Comma, .Period, .Slash,
   .Unknown]

/-- All keys, in declaration order. -/
def allKeys : List Key :=
  letterKeys ++ digitFunctionKeys ++ navigationNumpadKeys ++ modifierMiscKeys

/-- ASCII lower-casing of a single character's codepoint (the spec's
case-insensitive name matching). -/
def charLowerNat (c : Char) : Nat :=
  if 65 ≤ c.toNat ∧ c.toNat ≤ 90 then c.toNat + 32 else c.toNat

/-- A string's codepoints, lower-cased, as the case-insensitive lookup key. -/
def lowerKey (s : String) : List Nat :=
  s.data.map charLowerNat

/-- Modelled from the spec: the name table behind `stringToKey` — every
canonical name plus the accepted aliases the spec names ("esc", "space"). -/
def keyTable : List (String × Key) :=
  allKeys.map (fun k => (keyToString k, k)) ++ [("esc", .Escape), ("space", .Space)]

/-- Modelled from the spec: `stringToKey` (case-insensitive, alias-aware,
returns `Unknown` on no match — never fails with an error). -/
def stringToKey (name : String) : Key :=
  ((keyTable.find? (fun p => lowerKey p.1 == lowerKey name)).map (fun p => p.2)).getD Key.Unknown


/-- Modifier bitmask values (spec §6: Shift=0x01, Ctrl=0x02, Alt=0x04,
Super=0x08, CapsLock=0x10, NumLock=0x20); the `Modifier` enum is a uint8
bitmask, embedded as `Nat` with masking made explicit where the code
truncates. -/
abbrev Modifier := Nat

/-- Modifier::None. -/
def Modifier.None : Modifier := 0x00

/-- Modifier::Shift. -/
def Modifier.Shift : Modifier := 0x01

/-- Modifier::Ctrl. -/
def Modifier.Ctrl : Modifier := 0x02

/-- Modifier::Alt. -/
def Modifier.Alt : Modifier := 0x04

/-- Modifier::Super. -/
def Modifier.Super : Modifier := 0x08

/-- Modifier::CapsLock. -/
def Modifier.CapsLock : Modifier := 0x10

/-- Modifier::NumLock. -/
def Modifier.NumLock : Modifier := 0x20

/-- hasModifier(mods, flag): bitmask membership test (declared with the
Key/Modifier model; its uses in sender_uinput.cpp test one flag at a time). -/
def hasModifier (mods flag : Modifier) : Bool :=
  mods &&& flag != 0

/-- Capabilities: the immutable snapshot struct (include/typr-io/c_api.h
mirrors typr::io::Capabilities field for field). -/
structure Capabilities where
  canInjectKeys : Bool
  canInjectText : Bool
  canSimulateHID : Bool
  supportsKeyRepeat : Bool
  needsAccessibilityPerm : Bool
  needsInputMonitoringPerm : Bool
  needsUinputAccess : Bool
deriving DecidableEq

/-- One OS interaction attempted by the backend: a `write(2)` of an
input_event (type, code, value) whose success flag `ok` records the outcome
the OS produced (the code logs but otherwise ignores it), or the
inter-event sleep performed by `Impl::delay`. -/
inductive TraceEv where
  | write (type code val : Nat) (ok : Bool)
  | sleep (us : Nat)
deriving DecidableEq

/-- Sender::Impl fields (src/src/sender/sender_uinput.cpp lines 26-30):
the uinput file descriptor, the tracked modifier bitmask, the inter-event
delay in microseconds, and the per-instance Key -> Linux keycode map. -/
structure SenderImpl where
  fd : Int
  currentMods : Modifier
  keyDelayUs : Nat
  keyMap : List (Key × Nat)
deriving DecidableEq

/-- A Sender together with its OS environment: the pending outcomes of
future `write(2)` calls and the trace of OS interactions attempted so far. -/
structure SWorld where
  impl : SenderImpl
  env : List Bool
  trace : List TraceEv
deriving DecidableEq

/-- initKeyMap letters (Key::A..Key::Z -> KEY_A..KEY_Z). -/
def keyMapLetters : List (Key × Nat) :=
  [(.A, 30), (.B, 48), (.C, 46), (.D, 32), (.E, 18), (.F, 33), (.G, 34),
   (.H, 35), (.I, 23), (.J, 36), (.K, 37), (.L, 38), (.M, 50), (.N, 49),
   (.O, 24), (.P, 25), (.Q, 16), (.R, 19), (.S, 31), (.T, 20), (.U, 22),
   (.V, 47), (.W, 17), (.X, 45), (.Y, 21), (.Z, 44)]

/-- initKeyMap digit row and function keys. -/
def keyMapDigitsFunction : List (Key × Nat) :=
  [(.Num0, 11), (.Num1, 2), (.Num2, 3), (.Num3, 4), (.Num4, 5), (.Num5, 6),
   (.Num6, 7), (.Num7, 8), (.Num8, 9), (.Num9, 10),
   (.F1, 59), (.F2, 60), (.F3, 61), (.F4, 62), (.F5, 63), (.F6, 64),
   (.F7, 65), (.F8, 66), (.F9, 67), (.F10, 68), (.F11, 87), (.F12, 88),
   (.F13, 183), (.F14, 184), (.F15, 185), (.F16, 186), (.F17, 187),
   (.F18, 188), (.F19, 189), (.F20, 190)]

/-- initKeyMap control, navigation and numpad keys. -/
def keyMapNavigationNumpad : List (Key × Nat) :=
  [(.Enter, 28), (.Escape, 1), (.Backspace, 14), (.Tab, 15), (.Space, 57),
   (.Left, 105), (.Right, 106), (.Up, 103), (.Down, 108), (.Home, 102),
   (.End, 107), (.PageUp, 104), (.PageDown, 109), (.Delete, 111),
   (.Insert, 110),
   (.Numpad0, 82), (.Numpad1, 79), (.Numpad2, 80), (.Numpad3, 81),
   (.Numpad4, 75), (.Numpad5, 76), (.Numpad6, 77), (.Numpad7, 71),
   (.Numpad8, 72), (.Numpad9, 73),
   (.NumpadDivide, 98), (.NumpadMultiply, 55), (.NumpadMinus, 74),
   (.NumpadPlus, 78), (.NumpadEnter, 96), (.NumpadDecimal, 83)]

/-- initKeyMap modifiers, misc and punctuation. -/
def keyMapModifierMisc : List (Key × Nat) :=
  [(.ShiftLeft, 42), (.ShiftRight, 54), (.CtrlLeft, 29), (.CtrlRight, 97),
   (.AltLeft, 56), (.AltRight, 100), (.SuperLeft, 125), (.SuperRight, 126),
   (.CapsLock, 58), (.NumLock, 69),
   (.Menu, 139), (.Mute, 113), (.VolumeDown, 114), (.VolumeUp, 115),
   (.MediaPlayPause, 164), (.MediaStop, 166), (.MediaNext, 163),
   (.MediaPrevious, 165),
   (.Grave, 41), (.Minus, 12), (.Equal, 13), (.LeftBracket, 26),
   (.RightBracket, 27), (.Backslash, 43), (.Semicolon, 39),
   (.Apostrophe, 40), (.Comma, 51), (.Period, 52), (.Slash, 53)]

/-- Impl::initKeyMap: the per-instance logical-key -> Linux keycode table
(the numeric values are the linux/input-event-codes.h constants the source
names, e.g. KEY_A=30, KEY_LEFTSHIFT=42, KEY_CAPSLOCK=58, KEY_NUMLOCK=69). -/
def initKeyMap : List (Key × Nat) :=
  keyMapLetters ++ keyMapDigitsFunction ++ keyMapNavigationNumpad ++
    keyMapModifierMisc

/-- Impl::linuxKeyCodeFor: keyMap lookup, -1 when the key is unmapped. -/
def linuxKeyCodeFor (i : SenderImpl) (key : Key) : Int :=
  match i.keyMap.find? (fun p => p.1 == key) with
  | none => -1
  | some p => (p.2 : Int)

/-- EV_SYN event type. -/
def EV_SYN : Nat := 0

/-- EV_KEY event type. -/
def EV_KEY : Nat := 1

/-- SYN_REPORT event code. -/
def SYN_REPORT : Nat := 0

/-- Impl::emit: one `write(2)` of an input_event.  The next pending outcome
is consumed from the environment and recorded in the trace; the code only
logs a failed write and discards the result, so nothing else depends on
it. -/
def emit (w : SWorld) (type code val : Nat) : SWorld :=
  { impl := w.impl
    env := w.env.tail
    trace := w.trace ++ [TraceEv.write type code val (w.env.headD true)] }

/-- Impl::sync: emit(EV_SYN, SYN_REPORT, 0). -/
def sync (w : SWorld) : SWorld :=
  emit w EV_SYN SYN_REPORT 0

/-- Impl::sendKey (src/src/sender/sender_uinput.cpp lines 285-303): fail on
an invalid descriptor, fail on a missing keycode mapping, otherwise emit
the key event plus a sync and report success (a failing `write` is not
detected). -/
def sendKey (w : SWorld) (key : Key) (down : Bool) : Bool × SWorld :=
  if w.impl.fd < 0 then (false, w)
  else
    if linuxKeyCodeFor w.impl key < 0 then (false, w)
    else (true, sync (emit w EV_KEY (linuxKeyCodeFor w.impl key).toNat (if down then 1 else 0)))

/-- Impl::delay: sleep keyDelayUs microseconds when the delay is non-zero. -/
def senderDelay (w : SWorld) : SWorld :=
  if w.impl.keyDelayUs > 0 then
    { w with trace := w.trace ++ [TraceEv.sleep w.impl.keyDelayUs] }
  else w

/-- The switch statement in Sender::keyDown: set the tracked modifier bit
for the canonical modifier keys, leave the bitmask alone otherwise. -/
def modOnDown (key : Key) (m : Modifier) : Modifier :=
  match key with
  | .ShiftLeft | .ShiftRight => m ||| Modifier.Shift
  | .CtrlLeft | .CtrlRight => m ||| Modifier.Ctrl
  | .AltLeft | .AltRight => m ||| Modifier.Alt
  | .SuperLeft | .SuperRight => m ||| Modifier.Super
  | _ => m

/-- The switch statement in Sender::keyUp: clear the tracked modifier bit
(uint8 bitwise complement, i.e. mask against 255 ^^^ bit) for the canonical
modifier keys, leave the bitmask alone otherwise. -/
def modOnUp (key : Key) (m : Modifier) : Modifier :=
  match key with
  | .ShiftLeft | .ShiftRight => m &&& (255 ^^^ Modifier.Shift)
  | .CtrlLeft | .CtrlRight => m &&& (255 ^^^ Modifier.Ctrl)
  | .AltLeft | .AltRight => m &&& (255 ^^^ Modifier.Alt)
  | .SuperLeft | .SuperRight => m &&& (255 ^^^ Modifier.Super)
  | _ => m

namespace Sender

/-- Sender::keyDown (lines 350-379): update the tracked bitmask first, then
attempt the emission and return its outcome. -/
def keyDown (w : SWorld) (key : Key) : Bool × SWorld :=
  sendKey { w with impl := { w.impl with currentMods := modOnDown key w.impl.currentMods } } key true

/-- Sender::keyUp (lines 381-418): attempt the emission first, then clear
the tracked bit regardless of the outcome, and return the emission result. -/
def keyUp (w : SWorld) (key : Key) : Bool × SWorld :=
  ((sendKey w key false).1,
    { (sendKey w key false).2 with
      impl := { (sendKey w key false).2.impl with
        currentMods := modOnUp key (sendKey w key false).2.impl.currentMods } })

/-- Sender::tap (lines 420-429): keyDown; on failure return false at once,
otherwise delay and return keyUp's result. -/
def tap (w : SWorld) (key : Key) : Bool × SWorld :=
  if (keyDown w key).1 = false then (false, (keyDown w key).2)
  else keyUp (senderDelay (keyDown w key).2) key

/-- Sender::activeModifiers (lines 431-436). -/
def activeModifiers (w : SWorld) : Modifier :=
  w.impl.currentMods

/-- Sender::holdModifier (lines 438-454): keyDown the Left-side physical key
of every modifier set in `mods`; the result is the conjunction of the
individual results. -/
def holdModifier (w : SWorld) (mods : Modifier) : Bool × SWorld :=
  let r1 := if hasModifier mods Modifier.Shift then keyDown w Key.ShiftLeft else (true, w)
  let r2 := if hasModifier mods Modifier.Ctrl then keyDown r1.2 Key.CtrlLeft else (true, r1.2)
  let r3 := if hasModifier mods Modifier.Alt then keyDown r2.2 Key.AltLeft else (true, r2.2)
  let r4 := if hasModifier mods Modifier.Super then keyDown r3.2 Key.SuperLeft else (true, r3.2)
  (r1.1 && r2.1 && r3.1 && r4.1, r4.2)

/-- Sender::releaseModifier (lines 456-473): keyUp the Left-side physical
key of every modifier set in `mods`; conjunction of individual results. -/
def releaseModifier (w : SWorld) (mods : Modifier) : Bool × SWorld :=
  let r1 := if hasModifier mods Modifier.Shift then keyUp w Key.ShiftLeft else (true, w)
  let r2 := if hasModifier mods Modifier.Ctrl then keyUp r1.2 Key.CtrlLeft else (true, r1.2)
  let r3 := if hasModifier mods Modifier.Alt then keyUp r2.2 Key.AltLeft else (true, r2.2)
  let r4 := if hasModifier mods Modifier.Super then keyUp r3.2 Key.SuperLeft else (true, r3.2)
  (r1.1 && r2.1 && r3.1 && r4.1, r4.2)

/-- Sender::releaseAllModifiers (lines 475-482): releaseModifier over
Shift|Ctrl|Alt|Super. -/
def releaseAllModifiers (w : SWorld) : Bool × SWorld :=
  releaseModifier w (Modifier.Shift ||| Modifier.Ctrl ||| Modifier.Alt ||| Modifier.Super)

/-- Sender::combo (lines 484-495): holdModifier; on failure return false at
once; otherwise delay, tap, delay, releaseModifier (result discarded) and
return the tap outcome. -/
def combo (w : SWorld) (mods : Modifier) (key : Key) : Bool × SWorld :=
  if (holdModifier w mods).1 = false then (false, (holdModifier w mods).2)
  else
    ((tap (senderDelay (holdModifier w mods).2) key).1,
      (releaseModifier (senderDelay (tap (senderDelay (holdModifier w mods).2) key).2) mods).2)

/-- Sender::typeText(std::u32string) (lines 497-503): unsupported on the
uinput backend; returns false and does nothing. -/
def typeText32 (w : SWorld) (_text : List Nat) : Bool × SWorld :=
  (false, w)

/-- Sender::typeText(std::string) (lines 505-509): unsupported on the
uinput backend; returns false and does nothing. -/
def typeTextUtf8 (w : SWorld) (_utf8Text : String) : Bool × SWorld :=
  (false, w)

/-- Sender::typeCharacter (lines 511-515): unsupported on the uinput
backend; returns false and does nothing. -/
def typeCharacter (w : SWorld) (_codepoint : Nat) : Bool × SWorld :=
  (false, w)

/-- Sender::flush (lines 517-521): Impl::sync (attempted even when the
descriptor is invalid). -/
def flush (w : SWorld) : SWorld :=
  sync w

/-- Sender::setKeyDelay (lines 523-527). -/
def setKeyDelay (w : SWorld) (delayUs : Nat) : SWorld :=
  { w with impl := { w.impl with keyDelayUs := delayUs } }

/-- Sender::capabilities (lines 325-336): canInjectKeys iff the descriptor
is valid; text injection unsupported; uinput access always reported as
needed.  (A moved-from Sender with a null `m_impl` is not modelled: every
`SWorld` carries its Impl, as every freshly constructed Sender does.) -/
def capabilities (i : SenderImpl) : Capabilities :=
  { canInjectKeys := decide (0 ≤ i.fd)
    canInjectText := false
    canSimulateHID := true
    supportsKeyRepeat := true
    needsAccessibilityPerm := false
    needsInputMonitoringPerm := false
    needsUinputAccess := true }

/-- Sender::isReady (lines 338-342): true iff the descriptor is valid. -/
def isReady (i : SenderImpl) : Bool :=
  decide (0 ≤ i.fd)

/-- Sender::requestPermissions (lines 344-348): no runtime permission flow
for uinput; returns current readiness. -/
def requestPermissions (i : SenderImpl) : Bool :=
  isReady i

end Sender

/-- Impl::Impl (lines 32-70): opening /dev/uinput yields `openResult`; on
failure the constructor returns early with the default-constructed (empty)
key map, otherwise the device is set up and initKeyMap populates the
per-instance table.  Construction never throws: it is a total function of
the open(2) result. -/
def mkImpl (openResult : Int) : SenderImpl :=
  if openResult < 0 then
    { fd := openResult, currentMods := Modifier.None, keyDelayUs := 1000, keyMap := [] }
  else
    { fd := openResult, currentMods := Modifier.None, keyDelayUs := 1000, keyMap := initKeyMap }

/-- The modifier bit tracked for a key by the switch statements in
Sender::keyDown / Sender::keyUp, `none` for every other key (CapsLock and
NumLock included: they fall through to the default branch). -/
def trackedModifierBit : Key → Option Modifier
  | .ShiftLeft | .ShiftRight => some Modifier.Shift
  | .CtrlLeft | .CtrlRight => some Modifier.Ctrl
  | .AltLeft | .AltRight => some Modifier.Alt
  | .SuperLeft | .SuperRight => some Modifier.Super
  | _ => none

/-- One public Sender operation, for stating invariants over arbitrary call
sequences. -/
inductive SenderOp where
  | keyDown (key : Key)
  | keyUp (key : Key)
  | tap (key : Key)
  | holdModifier (mods : Modifier)
  | releaseModifier (mods : Modifier)
  | releaseAllModifiers
  | combo (mods : Modifier) (key : Key)
  | typeText32 (text : List Nat)
  | typeTextUtf8 (utf8Text : String)
  | typeCharacter (codepoint : Nat)
  | flush
  | setKeyDelay (delayUs : Nat)
deriving DecidableEq

/-- Apply one public Sender operation, discarding its boolean result. -/
def applyOp (w : SWorld) : SenderOp → SWorld
  | .keyDown key => (Sender.keyDown w key).2
  | .keyUp key => (Sender.keyUp w key).2
  | .tap key => (Sender.tap w key).2
  | .holdModifier mods => (Sender.holdModifier w mods).2
  | .releaseModifier mods => (Sender.releaseModifier w mods).2
  | .releaseAllModifiers => (Sender.releaseAllModifiers w).2
  | .combo mods key => (Sender.combo w mods key).2
  | .typeText32 text => (Sender.typeText32 w text).2
  | .typeTextUtf8 text => (Sender.typeTextUtf8 w text).2
  | .typeCharacter c => (Sender.typeCharacter w c).2
  | .flush => Sender.flush w
  | .setKeyDelay d => Sender.setKeyDelay w d

/-- Run a sequence of public Sender operations from a starting world. -/
def runOps (w : SWorld) : List SenderOp → SWorld
  | [] => w
  | op :: rest => runOps (applyOp w op) rest

/-- The process-wide last-error slot of the C API. -/
structure CApiState where
  lastError : Option String
deriving DecidableEq

/-- The state of a C-API listener handle (only what C7 needs). -/
structure CListener where
  running : Bool
deriving DecidableEq

/-- Substring test used to state "the last-error description contains the
argument name". -/
def strContains (s pat : String) : Bool :=
  (List.range (s.data.length + 1)).any (fun i => pat.data.isPrefixOf (s.data.drop i))

/-- Modelled from the spec: `typr_io_sender_key_down` (the c_api translation
unit is not under src/).  A null sender handle fails fast, performs no OS
interaction and overwrites the last-error slot with a description naming
"sender"; otherwise the call forwards to Sender::keyDown, recording a
description on failure. -/
def typr_io_sender_key_down (sender : Option SWorld) (key : Key) (st : CApiState) :
    Bool × Option SWorld × CApiState :=
  match sender with
  | none => (false, none, { lastError := some ("typr_io_sender_key_down: sender is null") })
  | some w =>
    let r := Sender.keyDown w key
    (r.1, some r.2,
      if r.1 then st else { lastError := some ("typr_io_sender_key_down: keyDown failed") })

/-- Modelled from the spec: `typr_io_sender_type_text_utf8`.  A null sender
or a null utf8_text fails fast, performs no OS interaction and overwrites
the last-error slot with a description naming the offending argument. -/
def typr_io_sender_type_text_utf8 (sender : Option SWorld) (text : Option String)
    (st : CApiState) : Bool × Option SWorld × CApiState :=
  match sender with
  | none => (false, none, { lastError := some ("typr_io_sender_type_text_utf8: sender is null") })
  | some w =>
    match text with
    | none =>
      (false, some w, { lastError := some ("typr_io_sender_type_text_utf8: utf8_text is null") })
    | some t =>
      let r := Sender.typeTextUtf8 w t
      (r.1, some r.2,
        if r.1 then st else
          { lastError := some ("typr_io_sender_type_text_utf8: typeText failed") })

/-- Modelled from the spec: `typr_io_listener_start`.  A null listener or a
null callback fails fast, changes no listener state and overwrites the
last-error slot with a description naming the offending argument. -/
def typr_io_listener_start (listener : Option CListener) (cb : Option Unit)
    (st : CApiState) : Bool × Option CListener × CApiState :=
  match listener with
  | none => (false, none, { lastError := some ("typr_io_listener_start: listener is null") })
  | some l =>
    match cb with
    | none => (false, some l, { lastError := some ("typr_io_listener_start: callback is null") })
    | some _ => (true, some { running := true }, st)

theorem emit_impl (w : SWorld) (t c v : Nat) : (emit w t c v).impl = w.impl := rfl

theorem sync_impl (w : SWorld) : (sync w).impl = w.impl := rfl

theorem senderDelay_impl (w : SWorld) : (senderDelay w).impl = w.impl := by
  unfold senderDelay
  split <;> rfl

theorem sendKey_snd_impl (w : SWorld) (key : Key) (d : Bool) :
    ((sendKey w key d).2).impl = w.impl := by
  unfold sendKey
  split
  · rfl
  · split <;> rfl

theorem sendKey_fd_neg (w : SWorld) (key : Key) (d : Bool) (h : w.impl.fd < 0) :
    sendKey w key d = (false, w) := by
  unfold sendKey
  rw [if_pos h]

theorem sendKey_of_fst_false (w : SWorld) (key : Key) (d : Bool)
    (h : (sendKey w key d).1 = false) : (sendKey w key d).2 = w := by
  unfold sendKey at *
  split
  · rfl
  · split
    · rfl
    · exact absurd h (by
        rename_i h1 h2
        simp [sendKey, if_neg h1, if_neg h2])

theorem sendKey_fst (w : SWorld) (key : Key) (d : Bool) :
    (sendKey w key d).1 =
      (decide (0 ≤ w.impl.fd) && decide (0 ≤ linuxKeyCodeFor w.impl key)) := by
  unfold sendKey
  by_cases h1 : w.impl.fd < 0
  · rw [if_pos h1]
    simp [not_le.mpr h1]
  · rw [if_neg h1]
    by_cases h2 : linuxKeyCodeFor w.impl key < 0
    · rw [if_pos h2]
      simp [not_le.mpr h2]
    · rw [if_neg h2]
      simp [not_lt.mp h1, not_lt.mp h2]

theorem keyDown_snd_impl (w : SWorld) (key : Key) :
    ((Sender.keyDown w key).2).impl =
      { w.impl with currentMods := modOnDown key w.impl.currentMods } := by
  unfold Sender.keyDown
  rw [sendKey_snd_impl]

theorem keyDown_fst (w : SWorld) (key : Key) :
    (Sender.keyDown w key).1 =
      (decide (0 ≤ w.impl.fd) && decide (0 ≤ linuxKeyCodeFor w.impl key)) := by
  unfold Sender.keyDown
  rw [sendKey_fst]
  rfl

theorem keyUp_fst (w : SWorld) (key : Key) :
    (Sender.keyUp w key).1 =
      (decide (0 ≤ w.impl.fd) && decide (0 ≤ linuxKeyCodeFor w.impl key)) := by
  unfold Sender.keyUp
  exact sendKey_fst w key false

theorem keyUp_snd_impl (w : SWorld) (key : Key) :
    ((Sender.keyUp w key).2).impl =
      { w.impl with currentMods := modOnUp key w.impl.currentMods } := by
  unfold Sender.keyUp
  rw [sendKey_snd_impl]

theorem modOnDown_of_bit_none {key : Key} (h : trackedModifierBit key = none)
    (m : Modifier) : modOnDown key m = m := by
  cases key <;> first
    | rfl
    | simp [trackedModifierBit] at h

theorem modOnUp_of_bit_none {key : Key} (h : trackedModifierBit key = none)
    (m : Modifier) : modOnUp key m = m := by
  cases key <;> first
    | rfl
    | simp [trackedModifierBit] at h

theorem modOnDown_of_bit_some {key : Key} {b : Modifier}
    (h : trackedModifierBit key = some b) (m : Modifier) :
    modOnDown key m = m ||| b := by
  cases key <;> simp [trackedModifierBit] at h <;> subst h <;> rfl

theorem modOnUp_of_bit_some {key : Key} {b : Modifier}
    (h : trackedModifierBit key = some b) (m : Modifier) :
    modOnUp key m = m &&& (255 ^^^ b) := by
  cases key <;> simp [trackedModifierBit] at h <;> subst h <;> rfl

/-- C4: tap(key) performs keyDown, then the configured delay, then keyUp;
it returns false iff keyDown or the subsequent keyUp fails; and when
keyDown fails, tap returns at once with keyDown's state — no keyUp is
attempted and no OS event at all was written. -/
theorem tap_is_keyDown_delay_keyUp (w : SWorld) (key : Key) :
    ((Sender.keyDown w key).1 = false →
      Sender.tap w key = (false, (Sender.keyDown w key).2) ∧
      ((Sender.keyDown w key).2).trace = w.trace) ∧
    ((Sender.keyDown w key).1 = true →
      Sender.tap w key = Sender.keyUp (senderDelay (Sender.keyDown w key).2) key) ∧
    (Sender.tap w key).1 =
      ((Sender.keyDown w key).1 &&
        (Sender.keyUp (senderDelay (Sender.keyDown w key).2) key).1) := by
  refine ⟨?_, ?_, ?_⟩
  · intro h
    refine ⟨by simp [Sender.tap, h], ?_⟩
    unfold Sender.keyDown at h ⊢
    rw [sendKey_of_fst_false _ _ _ h]
  · intro h
    simp [Sender.tap, h]
  · by_cases h : (Sender.keyDown w key).1 <;> simp [Sender.tap, h]

/-- C4 witness: on a ready Sender, tap of a mapped key decomposes into
keyDown, delay, keyUp. -/
theorem tap_is_keyDown_delay_keyUp_witness :
    (Sender.keyDown ⟨mkImpl 3, [], []⟩ Key.A).1 = true ∧
    Sender.tap ⟨mkImpl 3, [], []⟩ Key.A =
      Sender.keyUp (senderDelay (Sender.keyDown ⟨mkImpl 3, [], []⟩ Key.A).2) Key.A :=
  ⟨by decide, (tap_is_keyDown_delay_keyUp ⟨mkImpl 3, [], []⟩ Key.A).2.1 (by decide)⟩

/-- C5: on the uinput backend, typeText (UTF-32 and UTF-8 overloads) and
typeCharacter return false and do nothing — the world (state and trace) is
returned unchanged — and the backend reports canInjectText = false. -/
theorem typeText_unsupported (w : SWorld) (t32 : List Nat) (t8 : String) (cp : Nat) :
    Sender.typeText32 w t32 = (false, w) ∧
    Sender.typeTextUtf8 w t8 = (false, w) ∧
    Sender.typeCharacter w cp = (false, w) ∧
    (Sender.capabilities w.impl).canInjectText = false :=
  ⟨rfl, rfl, rfl, rfl⟩

/-- C8: isReady is true iff the uinput descriptor is valid (fd >= 0);
capabilities().canInjectKeys always equals isReady(); and a failed
construction (negative open(2) result) yields — without throwing, mkImpl
being total — a Sender that is not ready and reports needsUinputAccess. -/
theorem isReady_iff_fd_valid (w : SWorld) (r : Int) :
    (Sender.isReady w.impl = true ↔ 0 ≤ w.impl.fd) ∧
    (Sender.capabilities w.impl).canInjectKeys = Sender.isReady w.impl ∧
    (r < 0 → Sender.isReady (mkImpl r) = false ∧
      (Sender.capabilities (mkImpl r)).needsUinputAccess = true) := by
  refine ⟨by simp [Sender.isReady], rfl, ?_⟩
  intro h
  refine ⟨?_, rfl⟩
  simp [Sender.isReady, mkImpl, if_pos h, not_le.mpr h]

/-- C8 witness: a failed open (-1) yields an unready Sender that still
reports needsUinputAccess. -/
theorem isReady_iff_fd_valid_witness :
    Sender.isReady (mkImpl (-1)) = false ∧
    (Sender.capabilities (mkImpl (-1))).needsUinputAccess = true :=
  (isReady_iff_fd_valid ⟨mkImpl (-1), [], []⟩ (-1)).2.2 (by decide)

theorem and_bit_cases (a : Nat) (i : Nat) : a &&& 2 ^ i = 0 ∨ a &&& 2 ^ i = 2 ^ i := by
  rw [Nat.and_two_pow]
  cases a.testBit i <;> simp

theorem and_fifteen_decomp (a : Nat) :
    a &&& 15 = a &&& 1 ||| (a &&& 2 ||| (a &&& 4 ||| a &&& 8)) := by
  rw [← Nat.and_or_distrib_left, ← Nat.and_or_distrib_left, ← Nat.and_or_distrib_left]
  rw [show (1 ||| (2 ||| (4 ||| 8)) : Nat) = 15 by decide]

theorem holdModifier_currentMods (w : SWorld) (a : Modifier) :
    ((Sender.holdModifier w a).2).impl.currentMods =
      w.impl.currentMods ||| (a &&& 15) := by
  have h1 := and_bit_cases a 0
  have h2 := and_bit_cases a 1
  have h4 := and_bit_cases a 2
  have h8 := and_bit_cases a 3
  norm_num at h1 h2 h4 h8
  rw [and_fifteen_decomp]
  rcases h1 with h1 | h1 <;> rcases h2 with h2 | h2 <;>
    rcases h4 with h4 | h4 <;> rcases h8 with h8 | h8 <;>
    simp [Sender.holdModifier, hasModifier, h1, h2, h4, h8, keyDown_snd_impl,
      modOnDown, Modifier.Shift, Modifier.Ctrl, Modifier.Alt, Modifier.Super,
      Nat.or_assoc]

theorem releaseModifier_currentMods (w : SWorld) (a : Modifier)
    (hm : w.impl.currentMods < 256) :
    ((Sender.releaseModifier w a).2).impl.currentMods =
      w.impl.currentMods &&& (255 ^^^ (a &&& 15)) := by
  have h1 := and_bit_cases a 0
  have h2 := and_bit_cases a 1
  have h4 := and_bit_cases a 2
  have h8 := and_bit_cases a 3
  norm_num at h1 h2 h4 h8
  have hm255 : w.impl.currentMods &&& 255 = w.impl.currentMods := by
    have := Nat.and_pow_two_sub_one_of_lt_two_pow (n := 8) hm
    simpa using this
  rw [and_fifteen_decomp]
  rcases h1 with h1 | h1 <;> rcases h2 with h2 | h2 <;>
    rcases h4 with h4 | h4 <;> rcases h8 with h8 | h8 <;>
    simp [Sender.releaseModifier, hasModifier, h1, h2, h4, h8, keyUp_snd_impl,
      modOnUp, Modifier.Shift, Modifier.Ctrl, Modifier.Alt, Modifier.Super,
      Nat.and_assoc, hm255] <;>
    congr 1

theorem keyDown_fd_neg (w : SWorld) (key : Key) (h : w.impl.fd < 0) :
    Sender.keyDown w key =
      (false, { w with impl := { w.impl with currentMods := modOnDown key w.impl.currentMods } }) := by
  unfold Sender.keyDown
  exact sendKey_fd_neg _ key true h

theorem keyUp_fd_neg (w : SWorld) (key : Key) (h : w.impl.fd < 0) :
    Sender.keyUp w key =
      (false, { w with impl := { w.impl with currentMods := modOnUp key w.impl.currentMods } }) := by
  unfold Sender.keyUp
  rw [sendKey_fd_neg _ _ _ h]

theorem tap_currentMods_of_bit_none (w : SWorld) (key : Key)
    (h : trackedModifierBit key = none) :
    ((Sender.tap w key).2).impl.currentMods = w.impl.currentMods := by
  by_cases hkd : (Sender.keyDown w key).1 = false
  · simp [Sender.tap, hkd, keyDown_snd_impl, modOnDown_of_bit_none h]
  · simp [Sender.tap, hkd, keyUp_snd_impl, senderDelay_impl, keyDown_snd_impl,
      modOnUp_of_bit_none h, modOnDown_of_bit_none h]

/-- C1 counterexample: on an unready Sender (invalid descriptor, hence
canInjectKeys = false), keyDown of ShiftLeft returns false but does NOT
leave activeModifiers() unchanged — the Shift bit is set. -/
theorem keyDown_unready_modifier_cex :
    (Sender.capabilities (mkImpl (-1))).canInjectKeys = false ∧
    Sender.activeModifiers ⟨mkImpl (-1), [], []⟩ = Modifier.None ∧
    (Sender.keyDown ⟨mkImpl (-1), [], []⟩ Key.ShiftLeft).1 = false ∧
    Sender.activeModifiers (Sender.keyDown ⟨mkImpl (-1), [], []⟩ Key.ShiftLeft).2 ≠
      Modifier.None := by
  decide

/-- C1 amended: on an unready Sender every key-emission operation returns
false and attempts no OS write (the trace is unchanged), and
activeModifiers() is unchanged for every non-modifier key; but for a
tracked modifier key the bitmask is still updated — keyDown sets its bit
(and so does a failed tap, whose keyUp never runs) and keyUp clears it. -/
theorem keyEmission_unready (w : SWorld) (key : Key) (h : w.impl.fd < 0) :
    (Sender.keyDown w key).1 = false ∧
    (Sender.keyUp w key).1 = false ∧
    (Sender.tap w key).1 = false ∧
    ((Sender.keyDown w key).2).trace = w.trace ∧
    ((Sender.keyUp w key).2).trace = w.trace ∧
    ((Sender.tap w key).2).trace = w.trace ∧
    (trackedModifierBit key = none →
      Sender.activeModifiers (Sender.keyDown w key).2 = Sender.activeModifiers w ∧
      Sender.activeModifiers (Sender.keyUp w key).2 = Sender.activeModifiers w ∧
      Sender.activeModifiers (Sender.tap w key).2 = Sender.activeModifiers w) ∧
    (∀ b, trackedModifierBit key = some b →
      Sender.activeModifiers (Sender.keyDown w key).2 = Sender.activeModifiers w ||| b ∧
      Sender.activeModifiers (Sender.tap w key).2 = Sender.activeModifiers w ||| b ∧
      Sender.activeModifiers (Sender.keyUp w key).2 =
        Sender.activeModifiers w &&& (255 ^^^ b)) := by
  have hkd := keyDown_fd_neg w key h
  have hku := keyUp_fd_neg w key h
  have htap : Sender.tap w key = (false, (Sender.keyDown w key).2) := by
    simp [Sender.tap, hkd]
  refine ⟨by rw [hkd], by rw [hku], by rw [htap], by rw [hkd], by rw [hku],
    by rw [htap, hkd], ?_, ?_⟩
  · intro hb
    refine ⟨?_, ?_, ?_⟩ <;>
      simp [Sender.activeModifiers, hkd, hku, htap, modOnDown_of_bit_none hb,
        modOnUp_of_bit_none hb]
  · intro b hb
    refine ⟨?_, ?_, ?_⟩ <;>
      simp [Sender.activeModifiers, hkd, hku, htap, modOnDown_of_bit_some hb,
        modOnUp_of_bit_some hb]

/-- C1 witness: the amended behaviour at an unready Sender, for ShiftLeft
(a modifier key: bit set despite the false return) and for the key A
(activeModifiers untouched). -/
theorem keyEmission_unready_witness :
    ((Sender.keyDown ⟨mkImpl (-1), [], []⟩ Key.ShiftLeft).1 = false ∧
      Sender.activeModifiers (Sender.keyDown ⟨mkImpl (-1), [], []⟩ Key.ShiftLeft).2 =
        Sender.activeModifiers ⟨mkImpl (-1), [], []⟩ ||| Modifier.Shift) ∧
    Sender.activeModifiers (Sender.keyDown ⟨mkImpl (-1), [], []⟩ Key.A).2 =
      Sender.activeModifiers ⟨mkImpl (-1), [], []⟩ :=
  ⟨⟨(keyEmission_unready ⟨mkImpl (-1), [], []⟩ Key.ShiftLeft (by decide)).1,
    ((keyEmission_unready ⟨mkImpl (-1), [], []⟩ Key.ShiftLeft (by decide)).2.2.2.2.2.2.2
      Modifier.Shift (by decide)).1⟩,
   ((keyEmission_unready ⟨mkImpl (-1), [], []⟩ Key.A (by decide)).2.2.2.2.2.2.1
      (by decide)).1⟩

/-- C9 counterexample: on a ready Sender whose next two writes fail, keyUp
of ShiftLeft clears the tracked bit but returns TRUE — the failed write is
not detected — where the claim says it returns false. -/
theorem keyUp_write_failure_cex :
    (Sender.keyUp ⟨{ mkImpl 3 with currentMods := Modifier.Shift }, [false, false], []⟩
        Key.ShiftLeft).1 = true ∧
    Sender.activeModifiers
      (Sender.keyUp ⟨{ mkImpl 3 with currentMods := Modifier.Shift }, [false, false], []⟩
        Key.ShiftLeft).2 = Modifier.None ∧
    ((Sender.keyUp ⟨{ mkImpl 3 with currentMods := Modifier.Shift }, [false, false], []⟩
        Key.ShiftLeft).2).trace =
      [TraceEv.write EV_KEY 42 0 false, TraceEv.write EV_SYN SYN_REPORT 0 false] := by
  decide

/-- C9 amended: keyUp of a tracked modifier key clears its bit in
activeModifiers() regardless of the emission outcome — on an unready
Sender included — and its boolean result depends only on descriptor
validity and key-map coverage: an OS write failure is not detected, so
keyUp still returns true whenever the Sender is ready and the key mapped. -/
theorem keyUp_clears_tracked_bit (w : SWorld) (key : Key) (b : Modifier)
    (h : trackedModifierBit key = some b) :
    Sender.activeModifiers (Sender.keyUp w key).2 =
      Sender.activeModifiers w &&& (255 ^^^ b) ∧
    (Sender.keyUp w key).1 =
      (decide (0 ≤ w.impl.fd) && decide (0 ≤ linuxKeyCodeFor w.impl key)) := by
  constructor
  · simp [Sender.activeModifiers, keyUp_snd_impl, modOnUp_of_bit_some h]
  · exact keyUp_fst w key

/-- C9 witness: the amended behaviour at a ready Sender with failing
writes. -/
theorem keyUp_clears_tracked_bit_witness :
    Sender.activeModifiers
      (Sender.keyUp ⟨{ mkImpl 3 with currentMods := Modifier.Shift }, [false, false], []⟩
        Key.ShiftLeft).2 =
      Sender.activeModifiers
        ⟨{ mkImpl 3 with currentMods := Modifier.Shift }, [false, false], []⟩ &&&
        (255 ^^^ Modifier.Shift) ∧
    (Sender.keyUp ⟨{ mkImpl 3 with currentMods := Modifier.Shift }, [false, false], []⟩
        Key.ShiftLeft).1 =
      (decide ((0 : Int) ≤ 3) &&
        decide (0 ≤ linuxKeyCodeFor { mkImpl 3 with currentMods := Modifier.Shift }
          Key.ShiftLeft)) :=
  keyUp_clears_tracked_bit
    ⟨{ mkImpl 3 with currentMods := Modifier.Shift }, [false, false], []⟩
    Key.ShiftLeft Modifier.Shift (by decide)

theorem or_and_complement (m x : Nat) (hx : x < 256) :
    (m ||| x) &&& (255 ^^^ x) = m &&& (255 ^^^ x) := by
  apply Nat.eq_of_testBit_eq
  intro i
  simp only [Nat.testBit_and, Nat.testBit_or, Nat.testBit_xor]
  by_cases hi : i < 8
  · have h255 : Nat.testBit 255 i = true := by interval_cases i <;> decide
    cases hx2 : x.testBit i <;> simp [h255, hx2]
  · have hpow : (256 : Nat) ≤ 2 ^ i := by
      calc (256 : Nat) = 2 ^ 8 := by norm_num
      _ ≤ 2 ^ i := Nat.pow_le_pow_right (by norm_num) (by omega)
    have h255 : Nat.testBit 255 i = false :=
      Nat.testBit_eq_false_of_lt (by omega)
    have hx2 : x.testBit i = false :=
      Nat.testBit_eq_false_of_lt (by omega)
    simp [h255, hx2]

/-- C2 counterexample: on an unready Sender, combo(Shift, A) fails inside
holdModifier and returns early — no release is attempted (no OS event at
all is written) and activeModifiers() ends different from its pre-call
value (the Shift bit is left set). -/
theorem combo_unready_cex :
    Sender.activeModifiers ⟨mkImpl (-1), [], []⟩ = Modifier.None ∧
    (Sender.combo ⟨mkImpl (-1), [], []⟩ Modifier.Shift Key.A).1 = false ∧
    Sender.activeModifiers
      (Sender.combo ⟨mkImpl (-1), [], []⟩ Modifier.Shift Key.A).2 = Modifier.Shift ∧
    ((Sender.combo ⟨mkImpl (-1), [], []⟩ Modifier.Shift Key.A).2).trace = [] := by
  decide

/-- C2 amended: when holdModifier(mods) succeeds, combo is hold, delay,
tap, delay, then releaseModifier(mods) unconditionally — even when the tap
failed — and the overall result is the tap outcome; afterwards
activeModifiers() equals its pre-call value with the bits of mods cleared
(hence equals the pre-call value exactly when no bit of mods was already
set).  When holdModifier fails, combo instead returns false at once,
without tapping or releasing (see the counterexample). -/
theorem combo_releases_held_modifiers (w : SWorld) (mods : Modifier) (key : Key)
    (hm : w.impl.currentMods < 256)
    (hhold : (Sender.holdModifier w mods).1 = true)
    (hkey : trackedModifierBit key = none) :
    Sender.combo w mods key =
      ((Sender.tap (senderDelay (Sender.holdModifier w mods).2) key).1,
        (Sender.releaseModifier
          (senderDelay (Sender.tap (senderDelay (Sender.holdModifier w mods).2) key).2)
          mods).2) ∧
    Sender.activeModifiers (Sender.combo w mods key).2 =
      Sender.activeModifiers w &&& (255 ^^^ (mods &&& 15)) := by
  have hc : Sender.combo w mods key =
      ((Sender.tap (senderDelay (Sender.holdModifier w mods).2) key).1,
        (Sender.releaseModifier
          (senderDelay (Sender.tap (senderDelay (Sender.holdModifier w mods).2) key).2)
          mods).2) := by
    simp [Sender.combo, hhold]
  refine ⟨hc, ?_⟩
  rw [hc]
  have hX : ((senderDelay (Sender.tap (senderDelay (Sender.holdModifier w mods).2) key).2)).impl.currentMods =
      w.impl.currentMods ||| (mods &&& 15) := by
    rw [senderDelay_impl]
    rw [tap_currentMods_of_bit_none _ _ hkey]
    rw [senderDelay_impl]
    rw [holdModifier_currentMods]
  have hXlt : ((senderDelay (Sender.tap (senderDelay (Sender.holdModifier w mods).2) key).2)).impl.currentMods < 256 := by
    rw [hX]
    have h15 : mods &&& 15 < 256 :=
      lt_of_le_of_lt (Nat.and_le_right) (by norm_num)
    calc w.impl.currentMods ||| (mods &&& 15) < 2 ^ 8 :=
      Nat.or_lt_two_pow (by simpa using hm) (by simpa using h15)
    _ = 256 := by norm_num
  show (Sender.releaseModifier _ mods).2.impl.currentMods = _
  rw [releaseModifier_currentMods _ _ hXlt, hX]
  exact or_and_complement _ _ (lt_of_le_of_lt (Nat.and_le_right) (by norm_num))

/-- C2 witness: the amended behaviour at a ready Sender, Shift + A. -/
theorem combo_releases_held_modifiers_witness :
    Sender.activeModifiers
      (Sender.combo ⟨mkImpl 3, [], []⟩ Modifier.Shift Key.A).2 =
      Sender.activeModifiers ⟨mkImpl 3, [], []⟩ &&& (255 ^^^ (Modifier.Shift &&& 15)) :=
  (combo_releases_held_modifiers ⟨mkImpl 3, [], []⟩ Modifier.Shift Key.A
    (by decide) (by decide) (by decide)).2

theorem mkImpl_fd (r : Int) : (mkImpl r).fd = r := by
  unfold mkImpl
  split <;> rfl

theorem mkImpl_currentMods (r : Int) : (mkImpl r).currentMods = Modifier.None := by
  unfold mkImpl
  split <;> rfl

theorem mkImpl_keyMap_of_nonneg (r : Int) (h : 0 ≤ r) :
    (mkImpl r).keyMap = initKeyMap := by
  unfold mkImpl
  rw [if_neg (not_lt.mpr h)]

theorem linuxKeyCodeFor_init_ShiftLeft (i : SenderImpl) (h : i.keyMap = initKeyMap) :
    linuxKeyCodeFor i Key.ShiftLeft = 42 := by
  unfold linuxKeyCodeFor
  rw [h]
  decide

theorem linuxKeyCodeFor_init_CtrlLeft (i : SenderImpl) (h : i.keyMap = initKeyMap) :
    linuxKeyCodeFor i Key.CtrlLeft = 29 := by
  unfold linuxKeyCodeFor
  rw [h]
  decide

theorem linuxKeyCodeFor_init_AltLeft (i : SenderImpl) (h : i.keyMap = initKeyMap) :
    linuxKeyCodeFor i Key.AltLeft = 56 := by
  unfold linuxKeyCodeFor
  rw [h]
  decide

theorem linuxKeyCodeFor_init_SuperLeft (i : SenderImpl) (h : i.keyMap = initKeyMap) :
    linuxKeyCodeFor i Key.SuperLeft = 125 := by
  unfold linuxKeyCodeFor
  rw [h]
  decide

theorem keyUp_env_trace (w : SWorld) (key : Key) (c : Nat)
    (hfd : 0 ≤ w.impl.fd) (hc : linuxKeyCodeFor w.impl key = (c : Int)) :
    ((Sender.keyUp w key).2).env = w.env.tail.tail ∧
    ((Sender.keyUp w key).2).trace =
      w.trace ++ [TraceEv.write EV_KEY c 0 (w.env.headD true),
        TraceEv.write EV_SYN SYN_REPORT 0 (w.env.tail.headD true)] ∧
    ((Sender.keyUp w key).2).impl =
      { w.impl with currentMods := modOnUp key w.impl.currentMods } := by
  have hs : sendKey w key false = (true, sync (emit w EV_KEY c 0)) := by
    unfold sendKey
    rw [if_neg (not_lt.mpr hfd), hc]
    rw [if_neg (not_lt.mpr (by positivity))]
    simp
  unfold Sender.keyUp
  rw [hs]
  refine ⟨rfl, ?_, rfl⟩
  simp [sync, emit, EV_SYN, SYN_REPORT, EV_KEY]

/-- C3 counterexample: on a ready Sender, releaseAllModifiers attempts
key-ups only for ShiftLeft (42), CtrlLeft (29), AltLeft (56) and SuperLeft
(125) — no key-up for CapsLock (58) or NumLock (69) is ever attempted,
contrary to "a key-up for every modifier in the bitmask domain". -/
theorem releaseAllModifiers_no_lock_keys_cex :
    ((Sender.releaseAllModifiers ⟨mkImpl 3, [], []⟩).2).trace =
      [TraceEv.write EV_KEY 42 0 true, TraceEv.write EV_SYN SYN_REPORT 0 true,
       TraceEv.write EV_KEY 29 0 true, TraceEv.write EV_SYN SYN_REPORT 0 true,
       TraceEv.write EV_KEY 56 0 true, TraceEv.write EV_SYN SYN_REPORT 0 true,
       TraceEv.write EV_KEY 125 0 true, TraceEv.write EV_SYN SYN_REPORT 0 true] ∧
    (((Sender.releaseAllModifiers ⟨mkImpl 3, [], []⟩).2).trace.any
      (fun e => match e with
        | TraceEv.write _ code _ _ => code == 58 || code == 69
        | TraceEv.sleep _ => false)) = false := by
  decide

/-- C3 amended: releaseAllModifiers is releaseModifier on
Shift|Ctrl|Alt|Super, and is extensionally the same as releaseModifier on
the full six-modifier set only because releaseModifier ignores the
CapsLock and NumLock bits; on a ready Sender it attempts exactly four
key-ups — ShiftLeft, CtrlLeft, AltLeft, SuperLeft — and none for CapsLock
or NumLock. -/
theorem releaseAllModifiers_scope :
    (∀ w : SWorld,
      Sender.releaseAllModifiers w =
        Sender.releaseModifier w
          (Modifier.Shift ||| Modifier.Ctrl ||| Modifier.Alt ||| Modifier.Super)) ∧
    (∀ w : SWorld,
      Sender.releaseModifier w
        (Modifier.Shift ||| Modifier.Ctrl ||| Modifier.Alt ||| Modifier.Super |||
          Modifier.CapsLock ||| Modifier.NumLock) =
        Sender.releaseAllModifiers w) ∧
    (∀ fdv : Int, 0 ≤ fdv → ∀ env : List Bool,
      ((Sender.releaseAllModifiers ⟨mkImpl fdv, env, []⟩).2).trace =
        [TraceEv.write EV_KEY 42 0 (env.headD true),
         TraceEv.write EV_SYN SYN_REPORT 0 (env.tail.headD true),
         TraceEv.write EV_KEY 29 0 (env.tail.tail.headD true),
         TraceEv.write EV_SYN SYN_REPORT 0 (env.tail.tail.tail.headD true),
         TraceEv.write EV_KEY 56 0 (env.tail.tail.tail.tail.headD true),
         TraceEv.write EV_SYN SYN_REPORT 0 (env.tail.tail.tail.tail.tail.headD true),
         TraceEv.write EV_KEY 125 0 (env.tail.tail.tail.tail.tail.tail.headD true),
         TraceEv.write EV_SYN SYN_REPORT 0
           (env.tail.tail.tail.tail.tail.tail.tail.headD true)]) := by
  refine ⟨fun w => rfl, fun w => rfl, ?_⟩
  intro fdv hfd env
  have hkm0 : (⟨mkImpl fdv, env, ([] : List TraceEv)⟩ : SWorld).impl.keyMap = initKeyMap :=
    mkImpl_keyMap_of_nonneg fdv hfd
  have hfd0 : 0 ≤ (⟨mkImpl fdv, env, ([] : List TraceEv)⟩ : SWorld).impl.fd := by
    show 0 ≤ (mkImpl fdv).fd
    rw [mkImpl_fd]
    exact hfd
  obtain ⟨e0, t0, i0⟩ := keyUp_env_trace ⟨mkImpl fdv, env, []⟩ Key.ShiftLeft 42 hfd0
    (linuxKeyCodeFor_init_ShiftLeft _ hkm0)
  have hkm1 : ((Sender.keyUp ⟨mkImpl fdv, env, []⟩ Key.ShiftLeft).2).impl.keyMap =
      initKeyMap := by
    rw [i0]
    exact hkm0
  have hfd1 : 0 ≤ ((Sender.keyUp ⟨mkImpl fdv, env, []⟩ Key.ShiftLeft).2).impl.fd := by
    rw [i0]
    exact hfd0
  obtain ⟨e1, t1, i1⟩ := keyUp_env_trace _ Key.CtrlLeft 29 hfd1
    (linuxKeyCodeFor_init_CtrlLeft _ hkm1)
  have hkm2 : ((Sender.keyUp (Sender.keyUp ⟨mkImpl fdv, env, []⟩ Key.ShiftLeft).2
      Key.CtrlLeft).2).impl.keyMap = initKeyMap := by
    rw [i1]
    exact hkm1
  have hfd2 : 0 ≤ ((Sender.keyUp (Sender.keyUp ⟨mkImpl fdv, env, []⟩ Key.ShiftLeft).2
      Key.CtrlLeft).2).impl.fd := by
    rw [i1]
    exact hfd1
  obtain ⟨e2, t2, i2⟩ := keyUp_env_trace _ Key.AltLeft 56 hfd2
    (linuxKeyCodeFor_init_AltLeft _ hkm2)
  have hkm3 : ((Sender.keyUp (Sender.keyUp (Sender.keyUp ⟨mkImpl fdv, env, []⟩
      Key.ShiftLeft).2 Key.CtrlLeft).2 Key.AltLeft).2).impl.keyMap = initKeyMap := by
    rw [i2]
    exact hkm2
  have hfd3 : 0 ≤ ((Sender.keyUp (Sender.keyUp (Sender.keyUp ⟨mkImpl fdv, env, []⟩
      Key.ShiftLeft).2 Key.CtrlLeft).2 Key.AltLeft).2).impl.fd := by
    rw [i2]
    exact hfd2
  obtain ⟨e3, t3, i3⟩ := keyUp_env_trace _ Key.SuperLeft 125 hfd3
    (linuxKeyCodeFor_init_SuperLeft _ hkm3)
  have hrel : (Sender.releaseAllModifiers ⟨mkImpl fdv, env, []⟩).2 =
      (Sender.keyUp (Sender.keyUp (Sender.keyUp (Sender.keyUp ⟨mkImpl fdv, env, []⟩
        Key.ShiftLeft).2 Key.CtrlLeft).2 Key.AltLeft).2 Key.SuperLeft).2 := rfl
  rw [hrel, t3, t2, t1, t0]
  simp [e0, e1, e2]

/-- C3 witness: the four key-up attempts on a concrete ready Sender. -/
theorem releaseAllModifiers_scope_witness :
    ((Sender.releaseAllModifiers ⟨mkImpl 3, [], []⟩).2).trace =
      [TraceEv.write EV_KEY 42 0 true, TraceEv.write EV_SYN SYN_REPORT 0 true,
       TraceEv.write EV_KEY 29 0 true, TraceEv.write EV_SYN SYN_REPORT 0 true,
       TraceEv.write EV_KEY 56 0 true, TraceEv.write EV_SYN SYN_REPORT 0 true,
       TraceEv.write EV_KEY 125 0 true, TraceEv.write EV_SYN SYN_REPORT 0 true] :=
  releaseAllModifiers_scope.2.2 3 (by decide) []

/-- C7: a fallible C-API call with a null argument returns false, leaves
the wrapped instance untouched (no OS interaction is possible or
performed), and overwrites the process-wide last-error slot — whatever it
held before — with a description containing the offending argument's name:
"sender", "utf8_text" or "callback". -/
theorem c_api_null_argument_errors (st : CApiState) (key : Key) (w : SWorld)
    (l : CListener) :
    (typr_io_sender_key_down none key st).1 = false ∧
    (typr_io_sender_key_down none key st).2.1 = none ∧
    (∃ msg, (typr_io_sender_key_down none key st).2.2.lastError = some msg ∧
      strContains msg ("sender") = true) ∧
    (typr_io_sender_type_text_utf8 (some w) none st).1 = false ∧
    (typr_io_sender_type_text_utf8 (some w) none st).2.1 = some w ∧
    (∃ msg, (typr_io_sender_type_text_utf8 (some w) none st).2.2.lastError = some msg ∧
      strContains msg ("utf8_text") = true) ∧
    (typr_io_listener_start (some l) none st).1 = false ∧
    (typr_io_listener_start (some l) none st).2.1 = some l ∧
    (∃ msg, (typr_io_listener_start (some l) none st).2.2.lastError = some msg ∧
      strContains msg ("callback") = true) :=
  ⟨rfl, rfl, ⟨_, rfl, by decide⟩, rfl, rfl, ⟨_, rfl, by decide⟩, rfl, rfl,
    ⟨_, rfl, by decide⟩⟩

/-- C7 witness: the null-sender key_down call at concrete arguments. -/
theorem c_api_null_argument_errors_witness :
    (typr_io_sender_key_down none Key.A ⟨none⟩).1 = false ∧
    (typr_io_sender_key_down none Key.A ⟨none⟩).2.1 = none ∧
    (∃ msg, (typr_io_sender_key_down none Key.A ⟨none⟩).2.2.lastError = some msg ∧
      strContains msg ("sender") = true) :=
  ⟨(c_api_null_argument_errors ⟨none⟩ Key.A ⟨mkImpl (-1), [], []⟩ ⟨false⟩).1,
   (c_api_null_argument_errors ⟨none⟩ Key.A ⟨mkImpl (-1), [], []⟩ ⟨false⟩).2.1,
   (c_api_null_argument_errors ⟨none⟩ Key.A ⟨mkImpl (-1), [], []⟩ ⟨false⟩).2.2.1⟩

theorem or_lt_16 (x y : Nat) (hx : x < 16) (hy : y < 16) : x ||| y < 16 := by
  have h : x ||| y < 2 ^ 4 := Nat.or_lt_two_pow (by exact hx) (by exact hy)
  exact h

theorem modOnDown_lt_16 (key : Key) (m : Modifier) (h : m < 16) :
    modOnDown key m < 16 := by
  cases key <;> first
    | exact h
    | exact or_lt_16 _ _ h (by decide)

theorem modOnUp_le (key : Key) (m : Modifier) : modOnUp key m ≤ m := by
  cases key <;> first
    | exact le_refl m
    | exact Nat.and_le_left

theorem keyDown_mods_lt (w : SWorld) (key : Key) (h : w.impl.currentMods < 16) :
    ((Sender.keyDown w key).2).impl.currentMods < 16 := by
  rw [keyDown_snd_impl]
  exact modOnDown_lt_16 key _ h

theorem keyUp_mods_lt (w : SWorld) (key : Key) (h : w.impl.currentMods < 16) :
    ((Sender.keyUp w key).2).impl.currentMods < 16 := by
  rw [keyUp_snd_impl]
  exact lt_of_le_of_lt (modOnUp_le key _) h

theorem tap_mods_lt (w : SWorld) (key : Key) (h : w.impl.currentMods < 16) :
    ((Sender.tap w key).2).impl.currentMods < 16 := by
  by_cases hkd : (Sender.keyDown w key).1 = false
  · simp only [Sender.tap, hkd, if_pos]
    exact keyDown_mods_lt w key h
  · simp only [Sender.tap, hkd, if_neg, if_false]
    apply keyUp_mods_lt
    rw [senderDelay_impl]
    exact keyDown_mods_lt w key h

theorem holdModifier_mods_lt (w : SWorld) (mods : Modifier)
    (h : w.impl.currentMods < 16) :
    ((Sender.holdModifier w mods).2).impl.currentMods < 16 := by
  rw [holdModifier_currentMods]
  exact or_lt_16 _ _ h (lt_of_le_of_lt Nat.and_le_right (by decide))

theorem releaseModifier_mods_lt (w : SWorld) (mods : Modifier)
    (h : w.impl.currentMods < 16) :
    ((Sender.releaseModifier w mods).2).impl.currentMods < 16 := by
  rw [releaseModifier_currentMods w mods (lt_trans h (by decide))]
  exact lt_of_le_of_lt Nat.and_le_left h

theorem combo_mods_lt (w : SWorld) (mods : Modifier) (key : Key)
    (h : w.impl.currentMods < 16) :
    ((Sender.combo w mods key).2).impl.currentMods < 16 := by
  unfold Sender.combo
  split
  · exact holdModifier_mods_lt w mods h
  · apply releaseModifier_mods_lt
    rw [senderDelay_impl]
    apply tap_mods_lt
    rw [senderDelay_impl]
    exact holdModifier_mods_lt w mods h

theorem applyOp_mods_lt (w : SWorld) (op : SenderOp) (h : w.impl.currentMods < 16) :
    ((applyOp w op).impl.currentMods < 16 : Prop) := by
  cases op with
  | keyDown key => exact keyDown_mods_lt w key h
  | keyUp key => exact keyUp_mods_lt w key h
  | tap key => exact tap_mods_lt w key h
  | holdModifier mods => exact holdModifier_mods_lt w mods h
  | releaseModifier mods => exact releaseModifier_mods_lt w mods h
  | releaseAllModifiers => exact releaseModifier_mods_lt w _ h
  | combo mods key => exact combo_mods_lt w mods key h
  | typeText32 text => exact h
  | typeTextUtf8 text => exact h
  | typeCharacter c => exact h
  | flush => exact h
  | setKeyDelay d => exact h

theorem runOps_mods_lt (ops : List SenderOp) :
    ∀ w : SWorld, w.impl.currentMods < 16 → (runOps w ops).impl.currentMods < 16 := by
  induction ops with
  | nil => exact fun w h => h
  | cons op rest ih => exact fun w h => ih _ (applyOp_mods_lt w op h)

/-- C10: starting from any freshly constructed Sender, no sequence of
public operations can make the tracked bitmask leave the
Shift|Ctrl|Alt|Super subset (it stays below 16, so the CapsLock and
NumLock bits are never set); in particular keyDown/keyUp of CapsLock or
NumLock leave activeModifiers() untouched. -/
theorem activeModifiers_only_four_bits :
    (∀ (r : Int) (env : List Bool) (tr : List TraceEv) (ops : List SenderOp),
      (runOps ⟨mkImpl r, env, tr⟩ ops).impl.currentMods < 16 ∧
      (runOps ⟨mkImpl r, env, tr⟩ ops).impl.currentMods &&&
        (Modifier.CapsLock ||| Modifier.NumLock) = 0) ∧
    (∀ w : SWorld,
      Sender.activeModifiers (Sender.keyDown w Key.CapsLock).2 = Sender.activeModifiers w ∧
      Sender.activeModifiers (Sender.keyDown w Key.NumLock).2 = Sender.activeModifiers w ∧
      Sender.activeModifiers (Sender.keyUp w Key.CapsLock).2 = Sender.activeModifiers w ∧
      Sender.activeModifiers (Sender.keyUp w Key.NumLock).2 = Sender.activeModifiers w) := by
  have hsmall : ∀ m : Nat, m < 16 → m &&& (Modifier.CapsLock ||| Modifier.NumLock) = 0 := by
    decide
  constructor
  · intro r env tr ops
    have hlt : (runOps ⟨mkImpl r, env, tr⟩ ops).impl.currentMods < 16 := by
      apply runOps_mods_lt
      show (mkImpl r).currentMods < 16
      rw [mkImpl_currentMods]
      decide
    exact ⟨hlt, hsmall _ hlt⟩
  · intro w
    refine ⟨?_, ?_, ?_, ?_⟩ <;>
      simp [Sender.activeModifiers, keyDown_snd_impl, keyUp_snd_impl, modOnDown, modOnUp]

/-- C10 witness: a concrete sequence pressing CapsLock then ShiftLeft never
sets the lock bits. -/
theorem activeModifiers_only_four_bits_witness :
    (runOps ⟨mkImpl 3, [], []⟩
      [SenderOp.keyDown Key.CapsLock, SenderOp.keyDown Key.ShiftLeft]).impl.currentMods < 16 ∧
    (runOps ⟨mkImpl 3, [], []⟩
      [SenderOp.keyDown Key.CapsLock, SenderOp.keyDown Key.ShiftLeft]).impl.currentMods &&&
      (Modifier.CapsLock ||| Modifier.NumLock) = 0 :=
  activeModifiers_only_four_bits.1 3 [] []
    [SenderOp.keyDown Key.CapsLock, SenderOp.keyDown Key.ShiftLeft]

/-- C6: for every defined key other than `Unknown`, converting to the
canonical name string and back through the case-insensitive lookup is the
identity. -/
theorem stringToKey_keyToString_roundtrip (k : Key) (_ : k ≠ Key.Unknown) :
    stringToKey (keyToString k) = k := by
  cases k <;> rfl

/-- C6 witness: the round-trip at the concrete key `A`. -/
theorem stringToKey_keyToString_roundtrip_witness :
    Key.A ≠ Key.Unknown ∧ stringToKey (keyToString Key.A) = Key.A :=
  ⟨by decide, stringToKey_keyToString_roundtrip Key.A (by decide)⟩
